import Mathlib

/-
Verification of the shade command dispatcher (monty / shades commander).

The Python sources are shallowly embedded in Lean: pure fragments become
Lean functions, and the asyncio retry service becomes an explicit
scheduler state with a small-step relation.  Each definition cites the
source location it is translated from.  Machine integers stay Nat/Int
(no overflow is relevant at these sizes), dictionaries become
association lists, and asyncio task handles become task ids tracked by
the scheduler state.
-/

namespace Monty

/-- Shade actions, from commander/models/shade.py (ShadeAction: UP = "u",
DOWN = "d", STOP = "s").  The Python code passes the one-letter strings. -/
inductive ShadeAction where
  | u
  | d
  | s
  deriving DecidableEq

/-- The letter the Python code uses for an action. -/
def action_letter : ShadeAction → String
  | ShadeAction.u => "u"
  | ShadeAction.d => "d"
  | ShadeAction.s => "s"

/-- Human name used in success messages (arduino_whisperer.py line 510). -/
def action_name : ShadeAction → String
  | ShadeAction.u => "UP"
  | ShadeAction.d => "DOWN"
  | ShadeAction.s => "STOP"

/-- A row of the shades table, the fields read by
arduino_whisperer.send_shade_command_fast (lines 461-505).  Payload
columns may be missing (None in Python), hence Option. -/
structure ShadeData where
  shade_id : Nat
  remote_id : Nat
  remote_type : String
  channel : String
  header_bytes : String
  identifier_bytes : String
  up_command : Option String
  down_command : Option String
  stop_command : Option String
  common_byte : Nat
  deriving DecidableEq

/-- Payload selection by action (arduino_whisperer.py lines 473-479). -/
def action_payload (d : ShadeData) : ShadeAction → Option String
  | ShadeAction.u => d.up_command
  | ShadeAction.d => d.down_command
  | ShadeAction.s => d.stop_command

/-- Uppercase hexadecimal rendering of a Nat, as Python format X. -/
def hex_upper (n : Nat) : String :=
  String.mk ((Nat.toDigits 16 n).map Char.toUpper)

/-- Left-pad to width 2 with zeros, as the format 02X does. -/
def pad2 (s : String) : String :=
  if s.length = 0 then "00" else if s.length = 1 then "0" ++ s else s

/-- Python format string {remote_id:02X}: at least two uppercase hex digits. -/
def remote_id_hex (n : Nat) : String :=
  pad2 (hex_upper n)

/-- Python str.replace of a single space by nothing, used on the byte
strings (arduino_whisperer.py lines 496-498). -/
def strip_spaces (s : String) : String :=
  String.mk (s.toList.filter (fun c => c ≠ ' '))

/-- family flag: 0 for the AC123-06D family, 1 otherwise
(arduino_whisperer.py line 491). -/
def remote_type_val (d : ShadeData) : Nat :=
  if d.remote_type = "AC123-06D" then 0 else 1

/-- action code: 0 raise, 1 lower, 2 stop (arduino_whisperer.py line 492). -/
def cmd_type_val : ShadeAction → Nat
  | ShadeAction.u => 0
  | ShadeAction.d => 1
  | ShadeAction.s => 2

/-- cc flag: 1 iff the channel tag is exactly CC (arduino_whisperer.py
line 493). -/
def is_cc_val (d : ShadeData) : Nat :=
  if d.channel = "CC" then 1 else 0

/-- The TX line built by send_shade_command_fast and byte-for-byte
identically by send_shade_command_single_shot (arduino_whisperer.py
lines 495-502 and 607-614). -/
def build_arduino_command (d : ShadeData) (a : ShadeAction) (cmd : String) : String :=
  "TX:" ++ remote_id_hex d.remote_id ++ ","
    ++ strip_spaces d.header_bytes ++ ","
    ++ strip_spaces d.identifier_bytes ++ ","
    ++ strip_spaces cmd ++ ","
    ++ toString (remote_type_val d) ++ ","
    ++ toString d.common_byte ++ ","
    ++ toString (is_cc_val d) ++ ","
    ++ toString (cmd_type_val a)

/-- The frame encoder as a function of record and action: none exactly
when the selected payload is missing, empty, or the FF FF sentinel
(arduino_whisperer.py lines 481-488: if not cmd or cmd == FF FF). -/
def encode_shade_command (d : ShadeData) (a : ShadeAction) : Option String :=
  match action_payload d a with
  | none => none
  | some cmd => if cmd = "" ∨ cmd = "FF FF" then none else some (build_arduino_command d a cmd)

/- ---------------------------------------------------------------
Pydantic field constraints, from commander/models/scene.py.
--------------------------------------------------------------- -/

/-- SceneCommand constraints (scene.py lines 9-11): shade_id gt=0,
delay_ms ge=0. -/
def valid_scene_command_fields (shade_id : Int) (delay_ms : Int) : Bool :=
  shade_id > 0 && delay_ms ≥ 0

/-- SceneDefinition constraints (scene.py lines 28-40): retry_count
ge=0 le=5, timeout_seconds ge=1 le=300, commands non-empty. -/
def valid_scene_definition (retry_count timeout_seconds : Int) (num_commands : Nat) : Bool :=
  0 ≤ retry_count && retry_count ≤ 5
    && 1 ≤ timeout_seconds && timeout_seconds ≤ 300
    && num_commands != 0

/-- SceneExecutionRequest constraints (scene.py lines 86-90):
override_retry_count ge=0 le=10, override_timeout ge=1 le=600. -/
def valid_scene_execution_request (orc ot : Option Int) : Bool :=
  (match orc with
   | none => true
   | some r => 0 ≤ r && r ≤ 10)
  && (match ot with
      | none => true
      | some t => 1 ≤ t && t ≤ 600)

/-- Override application in routers/scenes.py lines 289-290: the
override, when present, is used as-is. -/
def effective_retry_count (orc : Option Int) (scene_rc : Int) : Int :=
  orc.getD scene_rc

/-- Override application in routers/scenes.py line 290 for the timeout. -/
def effective_timeout (ot : Option Int) (scene_t : Int) : Int :=
  ot.getD scene_t

/- ---------------------------------------------------------------
Scene execution log, from routers/scenes.py.
--------------------------------------------------------------- -/

/-- One scene execution log entry (models/shade.py SceneExecutionLog);
the per-command detail list is irrelevant to the bounded-ring claims
and omitted.  execution_time is the creation timestamp. -/
structure SceneExecutionLog where
  scene_name : String
  execution_time : Nat
  total_commands : Nat
  successful_commands : Nat
  failed_commands : Nat
  duration_ms : Nat
  deriving DecidableEq

/-- Append to the in-memory log, then keep only the last 100 entries
(routers/scenes.py _log_scene_execution lines 492-497). -/
def log_scene_execution (logs : List SceneExecutionLog) (entry : SceneExecutionLog) :
    List SceneExecutionLog :=
  let logs2 := logs ++ [entry]
  if logs2.length > 100 then logs2.drop (logs2.length - 100) else logs2

/-- Insertion step of sorting by execution_time, newest first.  Models
Python sorted(key=execution_time, reverse=True) up to the order of
entries with equal timestamps, which the endpoint does not fix. -/
def insert_desc (x : SceneExecutionLog) : List SceneExecutionLog → List SceneExecutionLog
  | [] => [x]
  | y :: ys =>
      if x.execution_time ≤ y.execution_time then y :: insert_desc x ys
      else x :: y :: ys

/-- Retrieval endpoint: the stored logs sorted newest first
(routers/scenes.py get_scene_execution_logs line 154). -/
def get_scene_execution_logs : List SceneExecutionLog → List SceneExecutionLog
  | [] => []
  | x :: xs => insert_desc x (get_scene_execution_logs xs)

/- ---------------------------------------------------------------
Serial link owner, from interface/arduino_whisperer.py
(SmartArduinoConnection).
--------------------------------------------------------------- -/

/-- The connection-relevant state of SmartArduinoConnection: the cached
serial handle (modelled by its port name), the remembered port name,
and the last-command timestamp.  Auto-detection and reconnection are
the only operations that set serial_connection; send_command_fast never
does. -/
structure SerialState where
  serial_connection : Option String
  current_port : Option String
  last_command_time : Option Nat
  deriving DecidableEq

/-- Result dictionary of SmartArduinoConnection.send_command_fast. -/
structure FastCmdResult where
  success : Bool
  error : Option String
  port : Option String
  command : String
  deriving DecidableEq

/-- SmartArduinoConnection.send_command_fast (arduino_whisperer.py lines
226-346).  Returns (result, new state, lines written to the device).
With no cached connection it fast-fails (lines 244-251) before taking
the lock, before any buffer flush and before any write, and it does not
call the auto-detection path.  On the connected path we model the
successful write branch; the lock-timeout and write-error branches also
leave serial_connection untouched and write nothing, so the claims
proved below about the disconnected branch are unaffected. -/
def send_command_fast (st : SerialState) (command : String) (now : Nat) :
    FastCmdResult × SerialState × List String :=
  match st.serial_connection with
  | none =>
      ({ success := false, error := some "No Arduino connection",
         port := none, command := command }, st, [])
  | some _ =>
      ({ success := true, error := none, port := st.current_port, command := command },
       { st with last_command_time := some now },
       [command ++ "\n"])

/-- n successive fire-and-forget sends through the same link state, as a
burst performs them. -/
def send_burst_n (st : SerialState) (cmd : String) (now : Nat) : Nat → SerialState × List FastCmdResult
  | 0 => (st, [])
  | n + 1 =>
      let r := send_command_fast st cmd now
      let rest := send_burst_n r.2.1 cmd now n
      (rest.1, r.1 :: rest.2)

/-- Result of the module-level send_shade_command_fast
(arduino_whisperer.py lines 432-544): success flag and message. -/
structure CommandResult where
  success : Bool
  message : String
  deriving DecidableEq

/-- send_shade_command_fast (arduino_whisperer.py lines 432-544): looks
up the shade, selects the payload, rejects missing / empty / FF FF
payloads with a not-configured failure, otherwise builds the TX line
and performs one fire-and-forget serial send. -/
def send_shade_command_fast (shade_id : Nat) (shade : Option ShadeData) (a : ShadeAction)
    (st : SerialState) (now : Nat) : CommandResult × SerialState :=
  match shade with
  | none =>
      ({ success := false,
         message := "Shade " ++ toString shade_id ++ " not found in database" }, st)
  | some d =>
      match action_payload d a with
      | none =>
          ({ success := false,
             message := "Command '" ++ action_letter a ++ "' not configured for shade "
               ++ toString shade_id }, st)
      | some cmd =>
          if cmd = "" ∨ cmd = "FF FF" then
            ({ success := false,
               message := "Command '" ++ action_letter a ++ "' not configured for shade "
                 ++ toString shade_id }, st)
          else
            let r := send_command_fast st (build_arduino_command d a cmd) now
            if r.1.success then
              ({ success := true,
                 message := "Shade " ++ toString shade_id ++ " " ++ action_name a
                   ++ " fire-and-forget command sent" }, r.2.1)
            else
              ({ success := false,
                 message := "Fire-and-forget command failed silently" }, r.2.1)

/- ---------------------------------------------------------------
The async retry service, from services/async_retry_service.py.

The service runs on a single-threaded cooperative asyncio loop.  We
model each background coroutine as a list of pending operations
(TaskOp); a suspension point separates consecutive operations.  The
service state carries the runnable coroutines, the active_tasks and
active_shade_tasks dictionaries, the set of task ids that have been
signalled cancellation (asyncio Task.cancel), the task counter, and the
ordered list of serial transmissions performed so far.
--------------------------------------------------------------- -/

/-- One step of a scene (models/scene.py SceneCommand): target shade,
action, post-step delay in milliseconds. -/
structure SceneCommand where
  shade_id : Nat
  action : ShadeAction
  delay_ms : Nat
  deriving DecidableEq

/-- Operations a background coroutine performs between suspension
points.  transmit is one awaited serial send of the frame encoded for
(shade, action); the service-map operations mirror the synchronous
dictionary updates the scene coroutine performs. -/
inductive TaskOp where
  | transmit (shade_id : Nat) (act : ShadeAction)
  | sleep_ms (ms : Nat)
  | cancel_shade (shade_id : Nat)
  | register_shade (shade_id : Nat)
  | unregister_shade (shade_id : Nat)
  deriving DecidableEq

/-- A queued background task: its id, remaining operations, and the
asyncio.wait_for bound it was wrapped in at creation (none when the
source wraps it in no timeout). -/
structure TaskEntry where
  tid : Nat
  ops : List TaskOp
  timeout_ms : Option Nat
  deriving DecidableEq

/-- State of AsyncRetryService plus the event loop.  trace records the
transmissions actually performed, as (task id, shade id, action), in
order. -/
structure SchedState where
  tasks : List TaskEntry
  active_tasks : List Nat
  active_shade_tasks : List (Nat × Nat)
  cancelled : List Nat
  task_counter : Nat
  trace : List (Nat × Nat × ShadeAction)
  deriving DecidableEq

/-- Fresh service state (AsyncRetryService.__init__). -/
def sched_init : SchedState :=
  { tasks := [], active_tasks := [], active_shade_tasks := [],
    cancelled := [], task_counter := 0, trace := [] }

/-- Dictionary lookup on an association list (Python dict get /
membership test). -/
def alist_lookup (l : List (Nat × Nat)) (k : Nat) : Option Nat :=
  match l.find? (fun p => p.1 == k) with
  | none => none
  | some p => some p.2

/-- Dictionary deletion (Python del). -/
def alist_erase (l : List (Nat × Nat)) (k : Nat) : List (Nat × Nat) :=
  l.filter (fun p => p.1 != k)

/-- Dictionary assignment (Python d[k] = v). -/
def alist_insert (l : List (Nat × Nat)) (k v : Nat) : List (Nat × Nat) :=
  alist_erase l k ++ [(k, v)]

/-- AsyncRetryService.cancel_shade_retries (async_retry_service.py lines
193-227).  If the shade has a registered task that is still in
active_tasks, that asyncio task is cancelled and the shade entry
removed (returns true); if the registration is stale the entry is
removed without a cancellation (returns false); otherwise nothing
happens (returns false). -/
def cancel_shade_retries (shade_id : Nat) (σ : SchedState) : Bool × SchedState :=
  match alist_lookup σ.active_shade_tasks shade_id with
  | none => (false, σ)
  | some task_id =>
      if task_id ∈ σ.active_tasks then
        (true, { σ with cancelled := task_id :: σ.cancelled,
                        active_shade_tasks := alist_erase σ.active_shade_tasks shade_id })
      else
        (false, { σ with active_shade_tasks := alist_erase σ.active_shade_tasks shade_id })

/-- The fire-and-forget burst body (_execute_fire_and_forget_sequence,
lines 133-191): one immediate transmission, then for each configured
delay a sleep of that length followed by another transmission of the
same frame. -/
def burst_ops (shade_id : Nat) (act : ShadeAction) (delays : List Nat) : List TaskOp :=
  TaskOp.transmit shade_id act
    :: delays.flatMap (fun dm => [TaskOp.sleep_ms dm, TaskOp.transmit shade_id act])

/-- AsyncRetryService.queue_fire_and_forget_sequence (lines 229-281):
first cancel_shade_retries for the shade, then generate a fresh task
id, create the burst task wrapped in a 10 s timeout
(timeout_protected_sequence, lines 262-272), record it in active_tasks
and register it in active_shade_tasks.  retry_delays_ms is [650, 1500]
(line 255). -/
def queue_fire_and_forget_sequence (shade_id : Nat) (act : ShadeAction) (σ : SchedState) :
    Nat × SchedState :=
  let σ1 := (cancel_shade_retries shade_id σ).2
  let task_id := σ1.task_counter + 1
  (task_id,
   { σ1 with
       task_counter := task_id,
       tasks := σ1.tasks ++ [⟨task_id, burst_ops shade_id act [650, 1500], some 10000⟩],
       active_tasks := task_id :: σ1.active_tasks,
       active_shade_tasks := alist_insert σ1.active_shade_tasks shade_id task_id })

/-- The shade-command endpoint control_shade (routers/shades.py lines
37-63): queue the fire-and-forget sequence and immediately answer
success = true with the task id.  No payload or configuration check
happens before queueing. -/
def control_shade (shade_id : Nat) (act : ShadeAction) (σ : SchedState) :
    (Bool × Nat) × SchedState :=
  let r := queue_fire_and_forget_sequence shade_id act σ
  ((true, r.1), r.2)

/-- One scene step of execute_scene_with_retries (lines 318-348):
cancel_shade_retries for the shade, register the scene task as the
shade's owner, one single-shot transmission, the post-step sleep
unless the step is last in its cycle or its delay is 0, and the
finally-block unregistration. -/
def scene_step_ops (c : SceneCommand) (is_last : Bool) : List TaskOp :=
  [TaskOp.cancel_shade c.shade_id, TaskOp.register_shade c.shade_id,
   TaskOp.transmit c.shade_id c.action]
    ++ (if !is_last && decide (0 < c.delay_ms) then [TaskOp.sleep_ms c.delay_ms] else [])
    ++ [TaskOp.unregister_shade c.shade_id]

/-- One cycle of execute_scene_with_retries: the steps in order, the
last step marked so its post-delay is skipped. -/
def scene_cycle_ops : List SceneCommand → List TaskOp
  | [] => []
  | [c] => scene_step_ops c true
  | c :: c2 :: rest => scene_step_ops c false ++ scene_cycle_ops (c2 :: rest)

/-- The whole body of execute_scene_with_retries (lines 310-364) for a
given total cycle count: the cycles in order with the 2 s inter-cycle
sleep (line 352) between consecutive cycles. -/
def scene_exec_ops (cmds : List SceneCommand) : Nat → List TaskOp
  | 0 => []
  | n + 1 =>
      scene_cycle_ops cmds
        ++ (if n = 0 then [] else [TaskOp.sleep_ms 2000])
        ++ scene_exec_ops cmds n

/-- AsyncRetryService.cancel_all_scene_tasks (lines 519-546): every
active task whose id is not registered for some shade is treated as a
scene task and cancelled. -/
def cancel_all_scene_tasks (σ : SchedState) : Nat × SchedState :=
  let shade_task_ids := σ.active_shade_tasks.map (fun p => p.2)
  let to_cancel := σ.active_tasks.filter (fun t => !(shade_task_ids.contains t))
  (to_cancel.length, { σ with cancelled := to_cancel ++ σ.cancelled })

/-- AsyncRetryService.queue_scene_execution (lines 283-381): cancel all
scene tasks, then create the scene task wrapped (timeout_protected_scene,
lines 367-374) in a timeout of timeout_seconds and record it in
active_tasks.  The shade map is only touched later, step by step, by
the running task. -/
def queue_scene_execution (cmds : List SceneCommand) (retry_count : Nat)
    (timeout_seconds : Nat) (σ : SchedState) : Nat × SchedState :=
  let σ1 := (cancel_all_scene_tasks σ).2
  let task_id := σ1.task_counter + 1
  (task_id,
   { σ1 with
       task_counter := task_id,
       tasks := σ1.tasks ++ [⟨task_id, scene_exec_ops cmds retry_count,
                              some (timeout_seconds * 1000)⟩],
       active_tasks := task_id :: σ1.active_tasks })

/-- One cycle of _execute_scene_retry_cycles (lines 395-420): a
single-shot transmission per command with the uniform
delay_between_commands_ms sleep between consecutive commands.  This
path never touches the shade map. -/
def scene_retry_cycle_ops (delay_between_ms : Nat) : List SceneCommand → List TaskOp
  | [] => []
  | [c] => [TaskOp.transmit c.shade_id c.action]
  | c :: c2 :: rest =>
      TaskOp.transmit c.shade_id c.action :: TaskOp.sleep_ms delay_between_ms
        :: scene_retry_cycle_ops delay_between_ms (c2 :: rest)

/-- The whole body of _execute_scene_retry_cycles for retry_count
cycles, with the 1 s sleep (line 420) between consecutive cycles. -/
def scene_retry_ops (cmds : List SceneCommand) (delay_between_ms : Nat) : Nat → List TaskOp
  | 0 => []
  | n + 1 =>
      scene_retry_cycle_ops delay_between_ms cmds
        ++ (if n = 0 then [] else [TaskOp.sleep_ms 1000])
        ++ scene_retry_ops cmds delay_between_ms n

/-- AsyncRetryService.queue_scene_retries (lines 430-457), the task the
scene route actually queues for its background cycles: for
retry_count = 0 nothing is queued; otherwise the retry-cycles task is
created with NO asyncio.wait_for wrapper (lines 451-453) and recorded
in active_tasks. -/
def queue_scene_retries (cmds : List SceneCommand) (retry_count : Nat)
    (delay_between_ms : Nat) (σ : SchedState) : Option Nat × SchedState :=
  if retry_count = 0 then (none, σ)
  else
    let task_id := σ.task_counter + 1
    (some task_id,
     { σ with
         task_counter := task_id,
         tasks := σ.tasks ++ [⟨task_id, scene_retry_ops cmds delay_between_ms retry_count,
                               none⟩],
         active_tasks := task_id :: σ.active_tasks })

/-- Guaranteed release on any exit path (the finally blocks at lines
184-191 and 361-364 together with the per-step finally at lines
345-348): the coroutine disappears from the loop, its active_tasks
entry is removed, and any shade entry still pointing at it is
removed. -/
def release_task (tid : Nat) (σ : SchedState) : SchedState :=
  { σ with
      tasks := σ.tasks.filter (fun e => e.tid != tid),
      active_tasks := σ.active_tasks.filter (fun t => t != tid),
      active_shade_tasks := σ.active_shade_tasks.filter (fun p => p.2 != tid) }

/-- Effect of one operation run by the (not cancelled) task tid, with
rest left as its remaining operations. -/
def exec_op (tid : Nat) (op : TaskOp) (rest : List TaskOp) (σ : SchedState) : SchedState :=
  let σ1 :=
    match op with
    | TaskOp.transmit s a => { σ with trace := σ.trace ++ [(tid, s, a)] }
    | TaskOp.sleep_ms _ => σ
    | TaskOp.cancel_shade s => (cancel_shade_retries s σ).2
    | TaskOp.register_shade s =>
        { σ with active_shade_tasks := alist_insert σ.active_shade_tasks s tid }
    | TaskOp.unregister_shade s =>
        if alist_lookup σ.active_shade_tasks s = some tid then
          { σ with active_shade_tasks := alist_erase σ.active_shade_tasks s }
        else σ
  { σ1 with tasks := σ1.tasks.map (fun e => if e.tid = tid then { e with ops := rest } else e) }

/-- Small-step semantics of the cooperative loop.  A resumed coroutine
that has been signalled cancellation raises CancelledError at its
suspension point and unwinds through the guaranteed-release hooks; a
finished one releases likewise; otherwise it runs its next operation.
Callers (the HTTP handlers) may run any of the synchronous queueing
entry points between coroutine resumptions. -/
inductive SchedStep : SchedState → SchedState → Prop where
  | resume_cancelled (σ : SchedState) (e : TaskEntry) :
      e ∈ σ.tasks → e.tid ∈ σ.cancelled → SchedStep σ (release_task e.tid σ)
  | resume_done (σ : SchedState) (e : TaskEntry) :
      e ∈ σ.tasks → e.ops = [] → SchedStep σ (release_task e.tid σ)
  | resume_op (σ : SchedState) (e : TaskEntry) (op : TaskOp) (rest : List TaskOp) :
      e ∈ σ.tasks → e.tid ∉ σ.cancelled → e.ops = op :: rest →
      SchedStep σ (exec_op e.tid op rest σ)
  | enqueue_shade (σ : SchedState) (shade_id : Nat) (act : ShadeAction) :
      SchedStep σ (queue_fire_and_forget_sequence shade_id act σ).2
  | enqueue_scene (σ : SchedState) (cmds : List SceneCommand) (r t : Nat) :
      SchedStep σ (queue_scene_execution cmds r t σ).2
  | enqueue_scene_retries (σ : SchedState) (cmds : List SceneCommand) (r dm : Nat) :
      SchedStep σ (queue_scene_retries cmds r dm σ).2

/-- Deterministic driver: resume the coroutine with id tid once (used to
exhibit concrete runs; resume_task_step below shows each application is
a SchedStep). -/
def resume_task (tid : Nat) (σ : SchedState) : SchedState :=
  match σ.tasks.find? (fun e => e.tid == tid) with
  | none => σ
  | some e =>
      if tid ∈ σ.cancelled then release_task tid σ
      else
        match e.ops with
        | [] => release_task tid σ
        | op :: rest => exec_op tid op rest σ

/-- The transmissions an operation list performs when run to completion
without cancellation, in order. -/
def task_transmits : List TaskOp → List (Nat × ShadeAction)
  | [] => []
  | TaskOp.transmit s a :: rest => (s, a) :: task_transmits rest
  | TaskOp.sleep_ms _ :: rest => task_transmits rest
  | TaskOp.cancel_shade _ :: rest => task_transmits rest
  | TaskOp.register_shade _ :: rest => task_transmits rest
  | TaskOp.unregister_shade _ :: rest => task_transmits rest

/-- Relative time offsets, from task start, of the transmissions of an
operation list (serial sends themselves counted as instantaneous, so
these are lower bounds on the observed offsets). -/
def transmit_offsets : List TaskOp → Nat → List Nat
  | [], _ => []
  | TaskOp.transmit _ _ :: rest, t => t :: transmit_offsets rest t
  | TaskOp.sleep_ms dm :: rest, t => transmit_offsets rest (t + dm)
  | TaskOp.cancel_shade _ :: rest, t => transmit_offsets rest t
  | TaskOp.register_shade _ :: rest, t => transmit_offsets rest t
  | TaskOp.unregister_shade _ :: rest, t => transmit_offsets rest t

/-- Total sleeping time of an operation list: the duration of an
uncancelled run, serial sends counted as instantaneous (a lower bound
on wall-clock duration). -/
def ops_duration_ms : List TaskOp → Nat
  | [] => 0
  | TaskOp.sleep_ms dm :: rest => dm + ops_duration_ms rest
  | TaskOp.transmit _ _ :: rest => ops_duration_ms rest
  | TaskOp.cancel_shade _ :: rest => ops_duration_ms rest
  | TaskOp.register_shade _ :: rest => ops_duration_ms rest
  | TaskOp.unregister_shade _ :: rest => ops_duration_ms rest

/-- The wall-clock bound a task's wait_for wrapper enforces: its own
duration when unwrapped, otherwise at most the timeout. -/
def effective_duration_ms (e : TaskEntry) : Nat :=
  match e.timeout_ms with
  | none => ops_duration_ms e.ops
  | some t => min (ops_duration_ms e.ops) t

/-- The transmissions of the synchronous first cycle the scene route
performs inline (routers/scenes.py execute_scene lines 328-379): each
command once, in order. -/
def scene_first_cycle (cmds : List SceneCommand) : List (Nat × ShadeAction) :=
  cmds.map (fun c => (c.shade_id, c.action))

/- ---------------------------------------------------------------
Concrete scenario states used by counterexamples and witnesses.
--------------------------------------------------------------- -/

/-- The Encode-up scenario record (spec scenario 1). -/
def encode_up_record : ShadeData :=
  { shade_id := 14, remote_id := 254, remote_type := "AC123-06D", channel := "A1",
    header_bytes := "5C 2D 0D 39", identifier_bytes := "FE FF",
    up_command := some "F4 69", down_command := some "BB CC", stop_command := some "AA 01",
    common_byte := 80 }

/-- The Encode-cc-down scenario record (spec scenario 2). -/
def encode_cc_down_record : ShadeData :=
  { encode_up_record with
      channel := "CC", remote_type := "AC123-16D", down_command := some "AA BB" }

/-- A record whose stop payload is the FF FF sentinel. -/
def ff_ff_record : ShadeData :=
  { encode_up_record with stop_command := some "FF FF" }

/-- Scene with two steps (shades 7 and 8) and two total cycles, queued
through queue_scene_execution on a fresh service. -/
def c1_scene_cmds : List SceneCommand :=
  [⟨7, ShadeAction.u, 750⟩, ⟨8, ShadeAction.d, 750⟩]

/-- State after the scene task (id 1) was queued. -/
def c1_sigma_queued : SchedState :=
  (queue_scene_execution c1_scene_cmds 2 30 sched_init).2

/-- State after the scene task ran its first step up to the post-step
sleep: it has cancelled prior owners of shade 7, registered itself for
shade 7, transmitted, and is suspended in the 750 ms sleep. -/
def c1_sigma_mid : SchedState :=
  resume_task 1 (resume_task 1 (resume_task 1 (resume_task 1 c1_sigma_queued)))

/-- State right after a single-shade enqueue for shade 7 arrived while
the scene step held shade 7. -/
def c1_sigma_after : SchedState :=
  (queue_fire_and_forget_sequence 7 ShadeAction.u c1_sigma_mid).2

/-- Fresh service with one burst task (id 1) owning shade 30. -/
def c4_sigma : SchedState :=
  (queue_fire_and_forget_sequence 30 ShadeAction.d sched_init).2

/-- Fresh service with one burst task (id 1) for shade 14. -/
def c3_sigma : SchedState :=
  (queue_fire_and_forget_sequence 14 ShadeAction.u sched_init).2

/-- The burst task of c3_sigma run to completion (five operations plus
the final release). -/
def c3_sigma_done : SchedState :=
  resume_task 1 (resume_task 1 (resume_task 1 (resume_task 1 (resume_task 1
    (resume_task 1 c3_sigma)))))

/-- Scene used against claim C6: two steps, retry-cycle count 5,
timeout_seconds 1 (a valid stored value). -/
def c6_scene_cmds : List SceneCommand :=
  [⟨14, ShadeAction.u, 750⟩, ⟨15, ShadeAction.d, 750⟩]

/-- What a fresh single-shade enqueue guarantees about a task that owns
the target shade at that moment: the enqueue's first phase
(cancel_shade_retries) signals cancellation to it before the second
phase registers and starts the new task; the map then names the new
task; and no reachable continuation adds a transmission by the old
task. -/
def latest_command_wins_post (S : Nat) (act : ShadeAction) (aId : Nat) (σ : SchedState) : Prop :=
  aId ∈ ((cancel_shade_retries S σ).2).cancelled
  ∧ (queue_fire_and_forget_sequence S act σ).1 = σ.task_counter + 1
  ∧ aId < (queue_fire_and_forget_sequence S act σ).1
  ∧ alist_lookup ((queue_fire_and_forget_sequence S act σ).2).active_shade_tasks S
      = some ((queue_fire_and_forget_sequence S act σ).1)
  ∧ aId ∈ ((queue_fire_and_forget_sequence S act σ).2).cancelled
  ∧ ∀ σ', Relation.ReflTransGen SchedStep ((queue_fire_and_forget_sequence S act σ).2) σ' →
      σ'.trace.filter (fun ev => ev.1 == aId)
        = ((queue_fire_and_forget_sequence S act σ).2).trace.filter (fun ev => ev.1 == aId)

/-- What a single-shade enqueue does to the task registered for the
shade when that task is a scene task: the scene task itself is
signalled cancellation, and no reachable continuation contains any
further transmission by the scene task (so the scene does not run its
remaining steps or cycles). -/
def scene_seizure_post (S : Nat) (act : ShadeAction) (sceneTid : Nat) (σ : SchedState) : Prop :=
  sceneTid ∈ ((queue_fire_and_forget_sequence S act σ).2).cancelled
  ∧ ∀ σ', Relation.ReflTransGen SchedStep ((queue_fire_and_forget_sequence S act σ).2) σ' →
      σ'.trace.filter (fun ev => ev.1 == sceneTid)
        = ((queue_fire_and_forget_sequence S act σ).2).trace.filter (fun ev => ev.1 == sceneTid)

/- ---------------------------------------------------------------
Helper lemmas.
--------------------------------------------------------------- -/

theorem alist_lookup_insert_self (l : List (Nat × Nat)) (k v : Nat) :
    alist_lookup (alist_insert l k v) k = some v := by
  unfold alist_insert alist_erase alist_lookup
  induction l with
  | nil => simp
  | cons p rest ih =>
      by_cases h : p.1 = k
      · simpa [h] using ih
      · have hb : (p.1 == k) = false := by simpa using h
        simpa [hb] using ih

theorem cancel_shade_retries_fields (s : Nat) (σ : SchedState) :
    ((cancel_shade_retries s σ).2).trace = σ.trace
    ∧ ((cancel_shade_retries s σ).2).task_counter = σ.task_counter
    ∧ ((cancel_shade_retries s σ).2).tasks = σ.tasks
    ∧ ((cancel_shade_retries s σ).2).active_tasks = σ.active_tasks
    ∧ σ.cancelled ⊆ ((cancel_shade_retries s σ).2).cancelled := by
  unfold cancel_shade_retries
  cases alist_lookup σ.active_shade_tasks s with
  | none => exact ⟨rfl, rfl, rfl, rfl, fun x hx => hx⟩
  | some tid =>
      by_cases h : tid ∈ σ.active_tasks
      · refine ⟨by simp [h], by simp [h], by simp [h], by simp [h], ?_⟩
        intro x hx
        simp [h]
        exact Or.inr hx
      · exact ⟨by simp [h], by simp [h], by simp [h], by simp [h], by simp [h]⟩

theorem cancel_shade_retries_mem_cancelled (s : Nat) (σ : SchedState) (aId : Nat)
    (hOwn : alist_lookup σ.active_shade_tasks s = some aId)
    (hActive : aId ∈ σ.active_tasks) :
    aId ∈ ((cancel_shade_retries s σ).2).cancelled := by
  unfold cancel_shade_retries
  rw [hOwn]
  simp [hActive]

theorem queue_fire_fields (S : Nat) (act : ShadeAction) (σ : SchedState) :
    ((queue_fire_and_forget_sequence S act σ).2).trace = σ.trace
    ∧ ((queue_fire_and_forget_sequence S act σ).2).cancelled
        = ((cancel_shade_retries S σ).2).cancelled
    ∧ (queue_fire_and_forget_sequence S act σ).1 = σ.task_counter + 1 := by
  refine ⟨?_, rfl, ?_⟩
  · simpa [queue_fire_and_forget_sequence] using (cancel_shade_retries_fields S σ).1
  · simp [queue_fire_and_forget_sequence, (cancel_shade_retries_fields S σ).2.1]

theorem queue_scene_execution_fields (cmds : List SceneCommand) (r t : Nat) (σ : SchedState) :
    ((queue_scene_execution cmds r t σ).2).trace = σ.trace
    ∧ σ.cancelled ⊆ ((queue_scene_execution cmds r t σ).2).cancelled := by
  constructor
  · simp [queue_scene_execution, cancel_all_scene_tasks]
  · intro x hx
    simp [queue_scene_execution, cancel_all_scene_tasks]
    exact Or.inr hx

theorem queue_scene_retries_fields (cmds : List SceneCommand) (r dm : Nat) (σ : SchedState) :
    ((queue_scene_retries cmds r dm σ).2).trace = σ.trace
    ∧ ((queue_scene_retries cmds r dm σ).2).cancelled = σ.cancelled := by
  unfold queue_scene_retries
  split
  · exact ⟨rfl, rfl⟩
  · exact ⟨rfl, rfl⟩

theorem schedStep_cancelled_subset {σ σ' : SchedState} (h : SchedStep σ σ') :
    σ.cancelled ⊆ σ'.cancelled := by
  cases h with
  | resume_cancelled e hm hc => intro x hx; simpa [release_task] using hx
  | resume_done e hm ho => intro x hx; simpa [release_task] using hx
  | resume_op e op rest hm hnc ho =>
      cases op with
      | transmit s a => intro x hx; simpa [exec_op] using hx
      | sleep_ms dm => intro x hx; simpa [exec_op] using hx
      | cancel_shade s =>
          intro x hx
          simpa [exec_op] using (cancel_shade_retries_fields s σ).2.2.2.2 hx
      | register_shade s => intro x hx; simpa [exec_op] using hx
      | unregister_shade s =>
          intro x hx
          by_cases hl : alist_lookup σ.active_shade_tasks s = some e.tid
          · simpa [exec_op, hl] using hx
          · simpa [exec_op, hl] using hx
  | enqueue_shade S act =>
      rw [(queue_fire_fields S act σ).2.1]
      exact (cancel_shade_retries_fields S σ).2.2.2.2
  | enqueue_scene cmds r t => exact (queue_scene_execution_fields cmds r t σ).2
  | enqueue_scene_retries cmds r dm =>
      rw [(queue_scene_retries_fields cmds r dm σ).2]
      exact fun x hx => hx

theorem schedStep_trace_filter {σ σ' : SchedState} (aId : Nat) (h : SchedStep σ σ')
    (hc : aId ∈ σ.cancelled) :
    σ'.trace.filter (fun ev => ev.1 == aId) = σ.trace.filter (fun ev => ev.1 == aId) := by
  cases h with
  | resume_cancelled e hm hcc => simp [release_task]
  | resume_done e hm ho => simp [release_task]
  | resume_op e op rest hm hnc ho =>
      cases op with
      | transmit s a =>
          have hne : e.tid ≠ aId := fun hEq => hnc (hEq ▸ hc)
          simp [exec_op, List.filter_append, hne]
      | sleep_ms dm => simp [exec_op]
      | cancel_shade s => simp [exec_op, (cancel_shade_retries_fields s σ).1]
      | register_shade s => simp [exec_op]
      | unregister_shade s =>
          by_cases hl : alist_lookup σ.active_shade_tasks s = some e.tid
          · simp [exec_op, hl]
          · simp [exec_op, hl]
  | enqueue_shade S act => rw [(queue_fire_fields S act σ).1]
  | enqueue_scene cmds r t => rw [(queue_scene_execution_fields cmds r t σ).1]
  | enqueue_scene_retries cmds r dm => rw [(queue_scene_retries_fields cmds r dm σ).1]

theorem sched_reach_cancelled (aId : Nat) {σ σ' : SchedState}
    (h : Relation.ReflTransGen SchedStep σ σ') (hc : aId ∈ σ.cancelled) :
    aId ∈ σ'.cancelled
    ∧ σ'.trace.filter (fun ev => ev.1 == aId) = σ.trace.filter (fun ev => ev.1 == aId) := by
  induction h with
  | refl => exact ⟨hc, rfl⟩
  | tail h1 h2 ih =>
      obtain ⟨hm, ht⟩ := ih
      exact ⟨schedStep_cancelled_subset h2 hm, by rw [schedStep_trace_filter aId h2 hm, ht]⟩

theorem resume_task_step (tid : Nat) (σ : SchedState) :
    resume_task tid σ = σ ∨ SchedStep σ (resume_task tid σ) := by
  unfold resume_task
  cases hf : σ.tasks.find? (fun e => e.tid == tid) with
  | none => exact Or.inl rfl
  | some e =>
      have hmem : e ∈ σ.tasks := List.mem_of_find?_eq_some hf
      have htid : e.tid = tid := by
        have := List.find?_some hf
        simpa using this
      subst htid
      right
      by_cases hc : e.tid ∈ σ.cancelled
      · simp only [if_pos hc]
        exact SchedStep.resume_cancelled (σ := σ) e hmem hc
      · simp only [if_neg hc]
        cases ho : e.ops with
        | nil => exact SchedStep.resume_done (σ := σ) e hmem ho
        | cons op rest => exact SchedStep.resume_op (σ := σ) e op rest hmem hc ho

theorem task_transmits_append (l1 l2 : List TaskOp) :
    task_transmits (l1 ++ l2) = task_transmits l1 ++ task_transmits l2 := by
  induction l1 with
  | nil => simp [task_transmits]
  | cons op rest ih => cases op <;> simp [task_transmits, ih]

theorem scene_retry_cycle_transmits (dm : Nat) (cmds : List SceneCommand) :
    task_transmits (scene_retry_cycle_ops dm cmds) = scene_first_cycle cmds := by
  induction cmds with
  | nil => rfl
  | cons c rest ih =>
      cases rest with
      | nil => rfl
      | cons c2 rest2 =>
          simp only [scene_retry_cycle_ops, task_transmits, scene_first_cycle, List.map_cons] at ih ⊢
          rw [ih]

theorem scene_retry_transmits (cmds : List SceneCommand) (dm r : Nat) :
    task_transmits (scene_retry_ops cmds dm r)
      = (List.replicate r (scene_first_cycle cmds)).flatten := by
  induction r with
  | zero => rfl
  | succ n ih =>
      have hsep : task_transmits (if n = 0 then ([] : List TaskOp) else [TaskOp.sleep_ms 1000])
          = [] := by split <;> rfl
      simp only [scene_retry_ops, task_transmits_append, hsep, ih,
        scene_retry_cycle_transmits, List.replicate_succ, List.flatten_cons, List.nil_append,
        List.append_assoc]

theorem insert_desc_perm (x : SceneExecutionLog) (l : List SceneExecutionLog) :
    List.Perm (insert_desc x l) (x :: l) := by
  induction l with
  | nil => exact List.Perm.refl _
  | cons y ys ih =>
      unfold insert_desc
      split
      · exact List.Perm.trans (List.Perm.cons y ih) (List.Perm.swap x y ys)
      · exact List.Perm.refl _

theorem get_logs_perm (l : List SceneExecutionLog) :
    List.Perm (get_scene_execution_logs l) l := by
  induction l with
  | nil => exact List.Perm.refl _
  | cons x xs ih =>
      exact List.Perm.trans (insert_desc_perm x (get_scene_execution_logs xs))
        (List.Perm.cons x ih)

theorem insert_desc_pairwise (x : SceneExecutionLog) (l : List SceneExecutionLog)
    (h : l.Pairwise (fun a b => b.execution_time ≤ a.execution_time)) :
    (insert_desc x l).Pairwise (fun a b => b.execution_time ≤ a.execution_time) := by
  induction l with
  | nil => simp [insert_desc]
  | cons y ys ih =>
      rw [List.pairwise_cons] at h
      obtain ⟨hy, hys⟩ := h
      unfold insert_desc
      split
      · rename_i hle
        rw [List.pairwise_cons]
        refine ⟨?_, ih hys⟩
        intro z hz
        have hz2 : z ∈ x :: ys := (insert_desc_perm x ys).mem_iff.mp hz
        rcases List.mem_cons.mp hz2 with hzx | hzys
        · exact hzx ▸ hle
        · exact hy z hzys
      · rename_i hgt
        rw [List.pairwise_cons]
        refine ⟨?_, List.pairwise_cons.mpr ⟨hy, hys⟩⟩
        intro z hz
        rcases List.mem_cons.mp hz with hzy | hzys
        · subst hzy; omega
        · have := hy z hzys; omega

/- ---------------------------------------------------------------
Claim theorems.
--------------------------------------------------------------- -/

/-- Claim C8: the frame encoder is a function of (record, action); on
the Encode-up record it yields exactly TX:FE,5C2D0D39,FEFF,F469,0,80,0,0
and on the Encode-cc-down variant exactly TX:FE,5C2D0D39,FEFF,AABB,1,80,1,1
(two-digit uppercase hex remote id, spaces stripped, family flag 0 only
for AC123-06D, cc flag 1 iff the channel is literally CC, action codes
0/1/2). -/
theorem encode_scenario_frames :
    encode_shade_command encode_up_record ShadeAction.u
        = some "TX:FE,5C2D0D39,FEFF,F469,0,80,0,0"
    ∧ encode_shade_command encode_cc_down_record ShadeAction.d
        = some "TX:FE,5C2D0D39,FEFF,AABB,1,80,1,1" := by
  exact ⟨by decide, by decide⟩

/-- Claim C7 counterexample: the per-call override fields accept
retry 10 and timeout 600, which lie outside the stored-scene ranges
0-5 and 1-300, and execute_scene then uses the override values as-is,
so an out-of-range override is not rejected before execution. -/
theorem override_range_counterexample :
    valid_scene_execution_request (some 10) (some 600) = true
    ∧ ¬((10 : Int) ≤ 5)
    ∧ ¬((600 : Int) ≤ 300)
    ∧ effective_retry_count (some 10) 2 = 10
    ∧ effective_timeout (some 600) 30 = 600 := by
  exact ⟨by decide, by decide, by decide, rfl, rfl⟩

/-- Claim C7 (amended): per-call overrides are accepted exactly within
0-10 for the retry-cycle count and 1-600 for the timeout, which is
wider than the stored SceneDefinition ranges 0-5 and 1-300; the stored
ranges themselves are as the spec states. -/
theorem override_ranges (orc ot : Option Int) :
    (valid_scene_execution_request orc ot = true
      ↔ ((∀ r ∈ orc, 0 ≤ r ∧ r ≤ 10) ∧ (∀ t ∈ ot, 1 ≤ t ∧ t ≤ 600)))
    ∧ ∀ (rc ts : Int) (n : Nat),
        (valid_scene_definition rc ts n = true
          ↔ (0 ≤ rc ∧ rc ≤ 5 ∧ 1 ≤ ts ∧ ts ≤ 300 ∧ n ≠ 0)) := by
  constructor
  · cases orc <;> cases ot <;>
      simp [valid_scene_execution_request, Bool.and_eq_true, decide_eq_true_eq]
  · intro rc ts n
    simp [valid_scene_definition, Bool.and_eq_true, decide_eq_true_eq, bne_iff_ne]
    tauto

/-- Claim C9: the scene execution log never exceeds 100 entries after an
append: the result of an append is exactly the most recent (at most)
100 entries of the extended list, so the oldest entries are the ones
dropped; and the retrieval endpoint returns the stored entries, newest
first. -/
theorem scene_log_ring (logs : List SceneExecutionLog) (e : SceneExecutionLog) :
    (log_scene_execution logs e).length ≤ 100
    ∧ log_scene_execution logs e = (logs ++ [e]).drop (logs.length + 1 - 100)
    ∧ (get_scene_execution_logs logs).Pairwise
        (fun a b => b.execution_time ≤ a.execution_time)
    ∧ List.Perm (get_scene_execution_logs logs) logs := by
  refine ⟨?_, ?_, ?_, get_logs_perm logs⟩
  · unfold log_scene_execution
    simp only [List.length_append, List.length_cons, List.length_nil]
    split
    · simp only [List.length_drop, List.length_append, List.length_cons, List.length_nil]
      omega
    · rename_i hle
      simp only [List.length_append, List.length_cons, List.length_nil] at hle ⊢
      omega
  · unfold log_scene_execution
    simp only [List.length_append, List.length_cons, List.length_nil]
    split
    · rfl
    · rename_i hle
      have h0 : logs.length + 1 - 100 = 0 := by omega
      rw [h0, List.drop_zero]
  · induction logs with
    | nil => simp [get_scene_execution_logs]
    | cons x xs ih => exact insert_desc_pairwise x (get_scene_execution_logs xs) ih

/-- Claim C10: with no cached serial connection, a fire-and-forget send
fails immediately with success false and error "No Arduino connection",
performs no write, attempts no auto-detection, and leaves the link
state (including the absent connection) unchanged, so every subsequent
burst send keeps failing and the state never changes until a
connection-establishing path runs. -/
theorem no_connection_silent_failure (st : SerialState) (cmd : String) (now : Nat)
    (h : st.serial_connection = none) :
    (send_command_fast st cmd now).1.success = false
    ∧ (send_command_fast st cmd now).1.error = some "No Arduino connection"
    ∧ (send_command_fast st cmd now).1.port = none
    ∧ (send_command_fast st cmd now).2.1 = st
    ∧ (send_command_fast st cmd now).2.2 = []
    ∧ ∀ n : Nat, (send_burst_n st cmd now n).1 = st
        ∧ ∀ r ∈ (send_burst_n st cmd now n).2, r.success = false := by
  have hfix : send_command_fast st cmd now
      = ({ success := false, error := some "No Arduino connection",
           port := none, command := cmd }, st, []) := by
    unfold send_command_fast
    rw [h]
  refine ⟨by rw [hfix], by rw [hfix], by rw [hfix], by rw [hfix], by rw [hfix], ?_⟩
  intro n
  induction n with
  | zero => exact ⟨rfl, by intro r hr; simp [send_burst_n] at hr⟩
  | succ k ih =>
      obtain ⟨ih1, ih2⟩ := ih
      constructor
      · show (send_burst_n (send_command_fast st cmd now).2.1 cmd now k).1 = st
        rw [hfix]
        exact ih1
      · intro r hr
        simp only [send_burst_n, hfix] at hr
        rcases List.mem_cons.mp hr with h1 | h2
        · rw [h1]
        · exact ih2 r h2

/-- Claim C10 witness: the disconnected state with three sends. -/
theorem no_connection_silent_failure_witness :
    (SerialState.mk none none none).serial_connection = none
    ∧ ((send_command_fast (SerialState.mk none none none) "TX:0A,00,00,00,0,0,0,0" 5).1.success
          = false
        ∧ (send_command_fast (SerialState.mk none none none) "TX:0A,00,00,00,0,0,0,0" 5).1.error
          = some "No Arduino connection"
        ∧ (send_command_fast (SerialState.mk none none none) "TX:0A,00,00,00,0,0,0,0" 5).1.port
          = none
        ∧ (send_command_fast (SerialState.mk none none none) "TX:0A,00,00,00,0,0,0,0" 5).2.1
          = SerialState.mk none none none
        ∧ (send_command_fast (SerialState.mk none none none) "TX:0A,00,00,00,0,0,0,0" 5).2.2
          = []
        ∧ ∀ n : Nat,
            (send_burst_n (SerialState.mk none none none) "TX:0A,00,00,00,0,0,0,0" 5 n).1
              = SerialState.mk none none none
            ∧ ∀ r ∈ (send_burst_n (SerialState.mk none none none)
                "TX:0A,00,00,00,0,0,0,0" 5 n).2, r.success = false) :=
  ⟨rfl, no_connection_silent_failure (SerialState.mk none none none)
    "TX:0A,00,00,00,0,0,0,0" 5 rfl⟩

/-- Claim C2 counterexample: for a record whose stop payload is the
FF FF sentinel, the encoder reports not-configured, yet the command
endpoint answers success and registers a retry task for the shade; the
caller sees no error and a background task is enqueued, so the error is
not surfaced synchronously before enqueueing. -/
theorem action_not_configured_counterexample :
    action_payload ff_ff_record ShadeAction.s = some "FF FF"
    ∧ encode_shade_command ff_ff_record ShadeAction.s = none
    ∧ (control_shade 14 ShadeAction.s sched_init).1.1 = true
    ∧ alist_lookup ((control_shade 14 ShadeAction.s sched_init).2).active_shade_tasks 14
        = some 1
    ∧ (control_shade 14 ShadeAction.s sched_init).2.tasks ≠ [] := by
  exact ⟨by decide, by decide, by decide, by decide, by decide⟩

/-- Claim C2 (amended): the FF FF sentinel is detected only inside the
background task: send_shade_command_fast returns success false with the
not-configured message and performs no write, while the synchronous
endpoint control_shade enqueues the fire-and-forget task unconditionally,
reports success to the caller, and registers the shade in the
shade-to-task map before any payload check can run. -/
theorem action_not_configured_background (d : ShadeData) (a : ShadeAction) (σ : SchedState)
    (st : SerialState) (now : Nat) (h : action_payload d a = some "FF FF") :
    encode_shade_command d a = none
    ∧ (send_shade_command_fast d.shade_id (some d) a st now).1.success = false
    ∧ (send_shade_command_fast d.shade_id (some d) a st now).1.message
        = "Command '" ++ action_letter a ++ "' not configured for shade "
            ++ toString d.shade_id
    ∧ (send_shade_command_fast d.shade_id (some d) a st now).2 = st
    ∧ (control_shade d.shade_id a σ).1.1 = true
    ∧ (control_shade d.shade_id a σ).1.2 = σ.task_counter + 1
    ∧ alist_lookup ((control_shade d.shade_id a σ).2).active_shade_tasks d.shade_id
        = some (σ.task_counter + 1) := by
  refine ⟨?_, ?_, ?_, ?_, rfl, ?_, ?_⟩
  · simp [encode_shade_command, h]
  · simp [send_shade_command_fast, h]
  · simp [send_shade_command_fast, h]
  · simp [send_shade_command_fast, h]
  · show (queue_fire_and_forget_sequence d.shade_id a σ).1 = σ.task_counter + 1
    exact (queue_fire_fields d.shade_id a σ).2.2
  · show alist_lookup ((queue_fire_and_forget_sequence d.shade_id a σ).2).active_shade_tasks
        d.shade_id = some (σ.task_counter + 1)
    rw [← (queue_fire_fields d.shade_id a σ).2.2]
    simpa [queue_fire_and_forget_sequence] using
      alist_lookup_insert_self ((cancel_shade_retries d.shade_id σ).2).active_shade_tasks
        d.shade_id (((cancel_shade_retries d.shade_id σ).2).task_counter + 1)

/-- Claim C2 witness: the amended claim at the FF FF record. -/
theorem action_not_configured_background_witness :
    action_payload ff_ff_record ShadeAction.s = some "FF FF"
    ∧ (encode_shade_command ff_ff_record ShadeAction.s = none
        ∧ (send_shade_command_fast ff_ff_record.shade_id (some ff_ff_record) ShadeAction.s
              (SerialState.mk none none none) 0).1.success = false
        ∧ (send_shade_command_fast ff_ff_record.shade_id (some ff_ff_record) ShadeAction.s
              (SerialState.mk none none none) 0).1.message
            = "Command '" ++ action_letter ShadeAction.s ++ "' not configured for shade "
                ++ toString ff_ff_record.shade_id
        ∧ (send_shade_command_fast ff_ff_record.shade_id (some ff_ff_record) ShadeAction.s
              (SerialState.mk none none none) 0).2 = SerialState.mk none none none
        ∧ (control_shade ff_ff_record.shade_id ShadeAction.s sched_init).1.1 = true
        ∧ (control_shade ff_ff_record.shade_id ShadeAction.s sched_init).1.2
            = sched_init.task_counter + 1
        ∧ alist_lookup ((control_shade ff_ff_record.shade_id ShadeAction.s
              sched_init).2).active_shade_tasks ff_ff_record.shade_id
            = some (sched_init.task_counter + 1)) :=
  ⟨by decide, action_not_configured_background ff_ff_record ShadeAction.s sched_init
    (SerialState.mk none none none) 0 (by decide)⟩

/-- Claim C3 counterexample: the burst's retry delays [650, 1500] are
inter-transmission gaps executed by consecutive sleeps, so the three
transmissions fall at offsets [0, 650, 2150] from task start, not
[0, 650, 1500]; the third lies beyond the allowed window [1500, 1600]
and the task cannot terminate within 2 s, since its sleeps alone take
2150 ms. -/
theorem burst_offsets_counterexample :
    transmit_offsets (burst_ops 14 ShadeAction.u [650, 1500]) 0 = [0, 650, 2150]
    ∧ [0, 650, 2150] ≠ [0, 650, 1500]
    ∧ ¬(ops_duration_ms (burst_ops 14 ShadeAction.u [650, 1500]) ≤ 2000) := by
  exact ⟨by decide, by decide, by decide⟩

/-- Claim C3 (amended): a single-shade burst issues exactly three
transmissions of the same (shade, action) frame at offsets
[0, 650, 2150] ms from task start (the frame is byte-identical because
encode_shade_command is a function of the unchanged record and action);
the sleeps total 2150 ms, within the task's 10 s wait_for bound; and a
run of the burst task to completion performs the three transmissions
and releases the shade ownership and the task entries. -/
theorem burst_schedule (shade_id : Nat) (act : ShadeAction) :
    task_transmits (burst_ops shade_id act [650, 1500])
        = [(shade_id, act), (shade_id, act), (shade_id, act)]
    ∧ transmit_offsets (burst_ops shade_id act [650, 1500]) 0 = [0, 650, 2150]
    ∧ ops_duration_ms (burst_ops shade_id act [650, 1500]) = 2150
    ∧ ops_duration_ms (burst_ops shade_id act [650, 1500]) ≤ 10000
    ∧ c3_sigma_done.trace
        = [(1, 14, ShadeAction.u), (1, 14, ShadeAction.u), (1, 14, ShadeAction.u)]
    ∧ c3_sigma_done.active_shade_tasks = []
    ∧ c3_sigma_done.active_tasks = []
    ∧ c3_sigma_done.tasks = [] := by
  refine ⟨rfl, rfl, rfl, ?_, by decide, by decide, by decide, by decide⟩
  show 2150 ≤ 10000
  decide

/-- Claim C5: the scene route runs one synchronous first cycle and then
r background retry cycles, so a scene with retry-cycle count r that
runs to completion performs exactly r + 1 total cycles, each iterating
the scene's steps in their defined order. -/
theorem scene_route_cycle_count (cmds : List SceneCommand) (dm r : Nat) :
    scene_first_cycle cmds ++ task_transmits (scene_retry_ops cmds dm r)
      = (List.replicate (r + 1) (scene_first_cycle cmds)).flatten := by
  rw [scene_retry_transmits]
  simp [List.replicate_succ]

/-- Claim C6 counterexample: the background retry-cycles task the scene
route queues is created without any wait_for wrapper, and for a valid
stored scene (two steps, delay 750 ms, retry-cycle count 5,
timeout_seconds 1) its sleeps alone take 7750 ms, far beyond
timeout_seconds plus any small slack, so not every scene task is
wrapped in a timeout equal to timeout_seconds. -/
theorem scene_retry_no_timeout_counterexample :
    valid_scene_definition 5 1 2 = true
    ∧ (queue_scene_retries c6_scene_cmds 5 750 sched_init).2.tasks
        = [⟨1, scene_retry_ops c6_scene_cmds 750 5, none⟩]
    ∧ ops_duration_ms (scene_retry_ops c6_scene_cmds 750 5) = 7750
    ∧ ¬(7750 ≤ 1 * 1000 + 500) := by
  exact ⟨by decide, by decide, by decide, by decide⟩

/-- Claim C6 (amended): only the scene task created by
queue_scene_execution is wrapped in a wait_for equal to the scene's
timeout_seconds, and its wall-clock bound is at most timeout_seconds;
the background retry-cycles task created by queue_scene_retries (the
one the scene route queues) carries no timeout wrapper, so its
duration is bounded only by its own program. -/
theorem scene_timeout_wrapping (cmds : List SceneCommand) (r t dm : Nat) (σ : SchedState) :
    (⟨(queue_scene_execution cmds r t σ).1, scene_exec_ops cmds r, some (t * 1000)⟩ : TaskEntry)
        ∈ ((queue_scene_execution cmds r t σ).2).tasks
    ∧ effective_duration_ms ⟨0, scene_exec_ops cmds r, some (t * 1000)⟩ ≤ t * 1000
    ∧ (⟨σ.task_counter + 1, scene_retry_ops cmds dm (r + 1), none⟩ : TaskEntry)
        ∈ ((queue_scene_retries cmds (r + 1) dm σ).2).tasks
    ∧ effective_duration_ms ⟨0, scene_retry_ops cmds dm (r + 1), none⟩
        = ops_duration_ms (scene_retry_ops cmds dm (r + 1)) := by
  refine ⟨?_, ?_, ?_, rfl⟩
  · simp [queue_scene_execution, cancel_all_scene_tasks]
  · exact Nat.min_le_right _ _
  · simp [queue_scene_retries]

/-- Claim C4: latest command wins.  If task aId currently owns shade S
and a new enqueue for S arrives, the enqueue's first phase cancels aId
before its second phase registers the fresh task (with the next counter
value, distinct from aId) and maps S to it; and from the post-enqueue
state no reachable scheduler continuation — coroutine resumptions or
further enqueues — ever appends a transmission by aId, so no
transmission of the old command occurs after the new task's first. -/
theorem latest_command_wins (σ : SchedState) (S : Nat) (act : ShadeAction) (aId : Nat)
    (hOwn : alist_lookup σ.active_shade_tasks S = some aId)
    (hActive : aId ∈ σ.active_tasks)
    (hFresh : aId ≤ σ.task_counter) :
    latest_command_wins_post S act aId σ := by
  have hCancel : aId ∈ ((cancel_shade_retries S σ).2).cancelled :=
    cancel_shade_retries_mem_cancelled S σ aId hOwn hActive
  have hTid : (queue_fire_and_forget_sequence S act σ).1 = σ.task_counter + 1 :=
    (queue_fire_fields S act σ).2.2
  have hQc : aId ∈ ((queue_fire_and_forget_sequence S act σ).2).cancelled := by
    rw [(queue_fire_fields S act σ).2.1]
    exact hCancel
  refine ⟨hCancel, hTid, by omega, ?_, hQc, ?_⟩
  · simpa [queue_fire_and_forget_sequence] using
      alist_lookup_insert_self ((cancel_shade_retries S σ).2).active_shade_tasks S
        (((cancel_shade_retries S σ).2).task_counter + 1)
  · intro σ' hreach
    exact (sched_reach_cancelled aId hreach hQc).2

/-- Claim C4 witness: a burst task owning shade 30 displaced by a new
enqueue for shade 30. -/
theorem latest_command_wins_witness :
    alist_lookup c4_sigma.active_shade_tasks 30 = some 1
    ∧ 1 ∈ c4_sigma.active_tasks
    ∧ 1 ≤ c4_sigma.task_counter
    ∧ latest_command_wins_post 30 ShadeAction.u 1 c4_sigma :=
  ⟨by decide, by decide, by decide,
   latest_command_wins c4_sigma 30 ShadeAction.u 1 (by decide) (by decide) (by decide)⟩

/-- Claim C1 counterexample: a concrete run through the embedded
semantics.  A scene with steps (shade 7 raise, delay 750) and
(shade 8 lower) and two total cycles is queued (task 1); after its
first step it has registered shade 7 under its own task id and sleeps.
A single-shade enqueue for shade 7 then cancels task 1 itself — the
whole scene task, not only the step's registration — and when the
scene task is next resumed it unwinds: it is removed from the loop and
performs no further transmission, so the shade-8 step and the second
cycle never run even though no newer scene cancelled the scene. -/
theorem scene_cancelled_by_shade_command_counterexample :
    alist_lookup c1_sigma_mid.active_shade_tasks 7 = some 1
    ∧ 1 ∈ c1_sigma_mid.active_tasks
    ∧ c1_sigma_mid.trace = [(1, 7, ShadeAction.u)]
    ∧ 1 ∈ c1_sigma_after.cancelled
    ∧ alist_lookup c1_sigma_after.active_shade_tasks 7 = some 2
    ∧ (resume_task 1 c1_sigma_after).tasks.find? (fun e => e.tid == 1) = none
    ∧ (resume_task 1 c1_sigma_after).trace = [(1, 7, ShadeAction.u)] := by
  exact ⟨by decide, by decide, by decide, by decide, by decide, by decide, by decide⟩

/-- Claim C1 (amended): while a scene step holds a shade, the
shade-to-task map names the scene task's own id, so a concurrent
single-shade enqueue for that shade cancels the scene task itself via
cancel_shade_retries; the cancelled scene task performs no further
transmission in any reachable continuation — it does not continue its
subsequent steps or cycles. -/
theorem shade_command_cancels_scene_task (σ : SchedState) (S : Nat) (act : ShadeAction)
    (sceneTid : Nat)
    (hOwn : alist_lookup σ.active_shade_tasks S = some sceneTid)
    (hActive : sceneTid ∈ σ.active_tasks) :
    scene_seizure_post S act sceneTid σ := by
  have hQc : sceneTid ∈ ((queue_fire_and_forget_sequence S act σ).2).cancelled := by
    rw [(queue_fire_fields S act σ).2.1]
    exact cancel_shade_retries_mem_cancelled S σ sceneTid hOwn hActive
  refine ⟨hQc, ?_⟩
  intro σ' hreach
  exact (sched_reach_cancelled sceneTid hreach hQc).2

/-- Claim C1 amended witness: the mid-scene state of the concrete run. -/
theorem shade_command_cancels_scene_task_witness :
    alist_lookup c1_sigma_mid.active_shade_tasks 7 = some 1
    ∧ 1 ∈ c1_sigma_mid.active_tasks
    ∧ scene_seizure_post 7 ShadeAction.u 1 c1_sigma_mid :=
  ⟨by decide, by decide,
   shade_command_cancels_scene_task c1_sigma_mid 7 ShadeAction.u 1 (by decide) (by decide)⟩

end Monty
